import Mathlib

/-!
Shallow embedding of the WakeOn drowsiness-detection feature-extraction core
(`python_training/src/feature_extraction.py`): EAR geometry, the blink-event
state machine, the temporal sliding-window aggregator, and the orchestrator.
Floating-point scalars are modelled as real numbers; the bounded `deque`s are
modelled as lists with front eviction; the external MediaPipe face detector and
the external PnP head-pose solver appear only as parameters at the interface
boundary the spec assigns them.
-/

/-- Per-frame snapshot of extracted facial features (`FacialFeatures`). -/
structure FacialFeatures where
  left_ear : ℝ
  right_ear : ℝ
  average_ear : ℝ
  yaw : ℝ
  pitch : ℝ
  roll : ℝ
  face_detected : Bool
  confidence : ℝ
  timestamp : ℝ

/-- `FacialFeatures.to_array`: the 5-element base feature vector. -/
noncomputable def FacialFeatures.to_array (f : FacialFeatures) : List ℝ :=
  [f.average_ear, f.yaw / 90.0, f.pitch / 90.0, f.roll / 90.0,
   if f.average_ear < 0.21 then 1.0 else 0.0]

/-- Error raised by `calculate_ear` (`ValueError` carrying the landmark count). -/
inductive EarError where
  | invalidInput (got : ℕ)
deriving DecidableEq

/-- `EyeAspectRatioCalculator.euclidean_distance` between two 2D points. -/
noncomputable def euclidean_distance (p1 p2 : ℝ × ℝ) : ℝ :=
  Real.sqrt ((p2.1 - p1.1) ^ 2 + (p2.2 - p1.2) ^ 2)

/-- `EyeAspectRatioCalculator.calculate_ear`: EAR of one eye from 6 landmarks. -/
noncomputable def calculate_ear (eye_landmarks : List (ℝ × ℝ)) : Except EarError ℝ :=
  if eye_landmarks.length ≠ 6 then
    .error (.invalidInput eye_landmarks.length)
  else
    let v1 := euclidean_distance (eye_landmarks.getD 1 (0, 0)) (eye_landmarks.getD 5 (0, 0))
    let v2 := euclidean_distance (eye_landmarks.getD 2 (0, 0)) (eye_landmarks.getD 4 (0, 0))
    let hdist := euclidean_distance (eye_landmarks.getD 0 (0, 0)) (eye_landmarks.getD 3 (0, 0))
    if hdist < 1e-6 then .ok 0.0
    else .ok ((v1 + v2) / (2.0 * hdist))

/-- `EyeAspectRatioCalculator.LEFT_EYE_INDICES`. -/
def LEFT_EYE_INDICES : List ℕ := [362, 385, 387, 263, 373, 380]

/-- `EyeAspectRatioCalculator.RIGHT_EYE_INDICES`. -/
def RIGHT_EYE_INDICES : List ℕ := [33, 160, 158, 133, 153, 144]

/-- `EyeAspectRatioCalculator.extract_eye_landmarks`: select (x, y) of the
indexed landmarks from the full face mesh. -/
def extract_eye_landmarks (face_landmarks : List (ℝ × ℝ × ℝ)) (eye_indices : List ℕ) :
    List (ℝ × ℝ) :=
  eye_indices.map fun i => ((face_landmarks.getD i (0, 0, 0)).1,
                            (face_landmarks.getD i (0, 0, 0)).2.1)

/-- Completed blink event emitted by the detector (`blink_event` dict). -/
structure BlinkEvent where
  start_time : ℝ
  end_time : ℝ
  duration_frames : ℕ
  is_complete : Bool

/-- State of `BlinkDetector`: configuration plus hysteresis state. -/
structure BlinkDetector where
  threshold : ℝ
  min_frames : ℕ
  max_frames : ℕ
  below_threshold : Bool
  frame_count : ℕ
  blink_start_time : ℝ

/-- `BlinkDetector.__init__` with the default parameters (0.21, 2, 12). -/
def BlinkDetector.init : BlinkDetector :=
  { threshold := 0.21, min_frames := 2, max_frames := 12,
    below_threshold := false, frame_count := 0, blink_start_time := 0 }

/-- `BlinkDetector.update`: one step of the blink state machine; returns the
new state and the emitted event, if any. -/
noncomputable def BlinkDetector.update (d : BlinkDetector) (ear timestamp : ℝ) :
    BlinkDetector × Option BlinkEvent :=
  if ear < d.threshold then
    if d.below_threshold then
      ({ d with frame_count := d.frame_count + 1 }, none)
    else
      ({ d with below_threshold := true, frame_count := 1, blink_start_time := timestamp },
       none)
  else
    if d.below_threshold then
      if d.min_frames ≤ d.frame_count ∧ d.frame_count ≤ d.max_frames then
        ({ d with below_threshold := false, frame_count := 0 },
         some { start_time := d.blink_start_time, end_time := timestamp,
                duration_frames := d.frame_count, is_complete := true })
      else
        ({ d with below_threshold := false, frame_count := 0 }, none)
    else
      (d, none)

/-- Run the blink detector over a stream of (ear, timestamp) samples,
collecting every emitted event in order. -/
noncomputable def runDetector (d : BlinkDetector) : List (ℝ × ℝ) → BlinkDetector × List BlinkEvent
  | [] => (d, [])
  | p :: ps =>
    let s1 := d.update p.1 p.2
    let r1 := runDetector s1.1 ps
    (r1.1, s1.2.toList ++ r1.2)

/-- Python `deque(maxlen)` append: add at the back, evict from the front when
the capacity is exceeded. -/
def dequePush (maxlen : ℕ) (l : List ℝ) (x : ℝ) : List ℝ :=
  (l ++ [x]).drop (l.length + 1 - maxlen)

/-- Mean of a list of samples (`np.mean`). -/
noncomputable def listMean (l : List ℝ) : ℝ := l.sum / l.length

/-- Population standard deviation of a list of samples (`np.std`). -/
noncomputable def listStd (l : List ℝ) : ℝ :=
  Real.sqrt ((l.map fun x => (x - listMean l) ^ 2).sum / l.length)

/-- `TemporalFeatureExtractor._compute_derivative`: the last entry of the
numerical gradient, i.e. the backward difference at the newest sample; 0.0
when fewer than 2 samples exist. -/
def listDeriv (l : List ℝ) : ℝ :=
  match l.reverse with
  | a :: b :: _ => a - b
  | _ => 0

/-- `TemporalFeatureExtractor._compute_perclos`: fraction of samples strictly
below the threshold. -/
noncomputable def listPerclos (l : List ℝ) (threshold : ℝ) : ℝ :=
  ((l.countP fun x => decide (x < threshold) : ℕ) : ℝ) / (l.length : ℝ)

/-- `TemporalFeatureExtractor._compute_blink_rate`: 17.0 when no blink was
ever recorded; otherwise the number of recorded blinks strictly within 60
seconds of the most recent recorded blink. -/
noncomputable def computeBlinkRate (blink_times : List ℝ) : ℝ :=
  match blink_times.getLast? with
  | none => 17.0
  | some current_time =>
      ((blink_times.countP fun t => decide (current_time - 60.0 < t) : ℕ) : ℝ)

/-- The temporal summary dict returned by `TemporalFeatureExtractor.update`. -/
structure TemporalSummary where
  ear_mean : ℝ
  ear_std : ℝ
  ear_derivative : ℝ
  perclos : ℝ
  blink_rate : ℝ

/-- `TemporalFeatureExtractor._default_features`: warm-start summary. -/
noncomputable def default_features : TemporalSummary :=
  { ear_mean := 0.30, ear_std := 0.0, ear_derivative := 0.0,
    perclos := 0.0, blink_rate := 17.0 }

/-- State of `TemporalFeatureExtractor`: configuration plus the two bounded
windows. -/
structure TemporalFeatureExtractor where
  window_size : ℕ
  fps : ℕ
  ear_history : List ℝ
  blink_times : List ℝ

/-- `TemporalFeatureExtractor.__init__` (defaults 30, 30). -/
def TemporalFeatureExtractor.init (window_size fps : ℕ) : TemporalFeatureExtractor :=
  { window_size := window_size, fps := fps, ear_history := [], blink_times := [] }

/-- The summary computed over a given EAR window and blink-time window: the
default when fewer than 3 samples are present, the statistics otherwise. -/
noncomputable def computeSummary (hist blink_times : List ℝ) : TemporalSummary :=
  if hist.length < 3 then default_features
  else
    { ear_mean := listMean hist, ear_std := listStd hist,
      ear_derivative := listDeriv hist, perclos := listPerclos hist 0.21,
      blink_rate := computeBlinkRate blink_times }

/-- `TemporalFeatureExtractor.update`: append the frame's average EAR to the
window, then return the summary and the mutated state. -/
noncomputable def TemporalFeatureExtractor.update (st : TemporalFeatureExtractor)
    (features : FacialFeatures) : TemporalSummary × TemporalFeatureExtractor :=
  let hist := dequePush st.window_size st.ear_history features.average_ear
  (computeSummary hist st.blink_times, { st with ear_history := hist })

/-- `TemporalFeatureExtractor.add_blink`: record a blink timestamp in the
capacity-100 window. -/
def TemporalFeatureExtractor.add_blink (st : TemporalFeatureExtractor) (timestamp : ℝ) :
    TemporalFeatureExtractor :=
  { st with blink_times := dequePush 100 st.blink_times timestamp }

/-- State of the orchestrator `FeatureExtractor`: frame geometry plus the two
owned stateful sub-extractors. -/
structure FeatureExtractorState where
  frame_width : ℕ
  frame_height : ℕ
  blink_detector : BlinkDetector
  temporal_extractor : TemporalFeatureExtractor

/-- `FeatureExtractor.__init__` with default frame size 640x480. -/
def FeatureExtractorState.init : FeatureExtractorState :=
  { frame_width := 640, frame_height := 480,
    blink_detector := BlinkDetector.init,
    temporal_extractor := TemporalFeatureExtractor.init 30 30 }

/-- `FeatureExtractor.extract`: per-frame pipeline. The external face detector
is abstracted to its outcome (`none` = no face, `some` = the landmark list)
and the external PnP head-pose solve to a function `pose`, both external
collaborators at the spec's interface boundary. -/
noncomputable def FeatureExtractor.extract (pose : List (ℝ × ℝ × ℝ) → ℝ × ℝ × ℝ)
    (st : FeatureExtractorState) (detection : Option (List (ℝ × ℝ × ℝ)))
    (timestamp : ℝ) : FacialFeatures × FeatureExtractorState :=
  match detection with
  | none =>
      ({ left_ear := 0.0, right_ear := 0.0, average_ear := 0.0,
         yaw := 0.0, pitch := 0.0, roll := 0.0,
         face_detected := false, confidence := 0.0, timestamp := timestamp }, st)
  | some face_landmarks =>
      let left_eye := extract_eye_landmarks face_landmarks LEFT_EYE_INDICES
      let right_eye := extract_eye_landmarks face_landmarks RIGHT_EYE_INDICES
      let left_ear := (calculate_ear left_eye).toOption.getD 0
      let right_ear := (calculate_ear right_eye).toOption.getD 0
      let average_ear := (left_ear + right_ear) / 2.0
      let ypr := pose face_landmarks
      let features : FacialFeatures :=
        { left_ear := left_ear, right_ear := right_ear, average_ear := average_ear,
          yaw := ypr.1, pitch := ypr.2.1, roll := ypr.2.2,
          face_detected := true, confidence := 0.9, timestamp := timestamp }
      let bd := st.blink_detector.update average_ear timestamp
      let temporal1 :=
        match bd.2 with
        | some _ => st.temporal_extractor.add_blink timestamp
        | none => st.temporal_extractor
      let tu := temporal1.update features
      (features, { st with blink_detector := bd.1, temporal_extractor := tu.2 })

/-- `FeatureExtractor.get_model_input`: the 10-element model-input vector; it
calls `TemporalFeatureExtractor.update` again, so it also returns the mutated
orchestrator state. -/
noncomputable def FeatureExtractor.get_model_input (st : FeatureExtractorState)
    (features : FacialFeatures) : List ℝ × FeatureExtractorState :=
  let base := features.to_array
  let tu := st.temporal_extractor.update features
  (base ++ [tu.1.ear_mean, tu.1.ear_std, tu.1.ear_derivative, tu.1.perclos,
            tu.1.blink_rate / 30.0],
   { st with temporal_extractor := tu.2 })

/-- A frame whose average EAR (-5) lies outside the valid range [0, 1],
modelling upstream landmark corruption. -/
noncomputable def corruptFrame : FacialFeatures :=
  { left_ear := -5, right_ear := -5, average_ear := -5,
    yaw := 0, pitch := 0, roll := 0, face_detected := true,
    confidence := 0.9, timestamp := 0 }

/-- One temporal update of a fresh extractor with the corrupt frame. -/
noncomputable def corruptOnce : TemporalSummary × TemporalFeatureExtractor :=
  (TemporalFeatureExtractor.init 30 30).update corruptFrame

/-- Three temporal updates of a fresh extractor with the corrupt frame. -/
noncomputable def corruptThrice : TemporalSummary × TemporalFeatureExtractor :=
  ((corruptOnce.2.update corruptFrame).2.update corruptFrame)

/-- While the detector is below threshold, every further below-threshold frame
only increments the frame counter and emits nothing. -/
theorem runDetector_all_below (rest : List (ℝ × ℝ)) :
    ∀ (d : BlinkDetector) (tail : List (ℝ × ℝ)),
      d.below_threshold = true → (∀ p ∈ rest, p.1 < d.threshold) →
      runDetector d (rest ++ tail) =
        runDetector { d with frame_count := d.frame_count + rest.length } tail := by
  induction rest with
  | nil => intro d tail _ _; simp
  | cons p rest ih =>
      intro d tail hb hlt
      have hp : p.1 < d.threshold := hlt p (by simp)
      have hrest : ∀ q ∈ rest, q.1 < d.threshold := fun q hq => hlt q (by simp [hq])
      simp only [List.cons_append, runDetector, BlinkDetector.update, if_pos hp, hb,
        if_true, Option.toList_none, List.nil_append, List.append_eq]
      rw [ih ⟨d.threshold, d.min_frames, d.max_frames, true, d.frame_count + 1,
            d.blink_start_time⟩ tail rfl hrest]
      have harith : d.frame_count + 1 + rest.length = d.frame_count + (rest.length + 1) := by
        omega
      simp [Prod.mk.eta, harith]

/-- A full below-threshold excursion from the resting state: a blink event is
emitted on the upward crossing exactly when the accumulated frame count lies
in the inclusive interval, with start = first below-threshold timestamp,
end = crossing timestamp; in all cases the detector returns to the resting
state with the counter reset. -/
theorem blink_upward_crossing (t s0 : ℝ) (m M : ℕ) (e0 ts0 eEnd tsEnd : ℝ)
    (rest : List (ℝ × ℝ))
    (h0 : e0 < t) (hrest : ∀ p ∈ rest, p.1 < t) (hEnd : t ≤ eEnd) :
    runDetector
      { threshold := t, min_frames := m, max_frames := M,
        below_threshold := false, frame_count := 0, blink_start_time := s0 }
      (((e0, ts0) :: rest) ++ [(eEnd, tsEnd)]) =
      ({ threshold := t, min_frames := m, max_frames := M,
         below_threshold := false, frame_count := 0, blink_start_time := ts0 },
       if m ≤ rest.length + 1 ∧ rest.length + 1 ≤ M then
         [{ start_time := ts0, end_time := tsEnd,
            duration_frames := rest.length + 1, is_complete := true }]
       else []) := by
  simp only [List.cons_append, runDetector, BlinkDetector.update, if_pos h0,
    Bool.false_eq_true, if_false, Option.toList_none, List.nil_append, List.append_eq]
  rw [runDetector_all_below rest ⟨t, m, M, true, 1, ts0⟩ [(eEnd, tsEnd)] rfl hrest]
  have hnend : ¬ (eEnd < t) := not_lt.mpr hEnd
  simp only [runDetector, BlinkDetector.update, if_neg hnend, if_true,
    Option.toList_some, Nat.add_comm 1 rest.length]
  split_ifs with hc <;> simp

/-- C1: On an upward crossing after a below-threshold excursion started from
the resting OPEN state, `BlinkDetector.update` emits a completed BlinkEvent
with start = timestamp of the first below-threshold frame, end = the crossing
timestamp and durationFrames = the number of consecutive below-threshold
frames, if and only if minFrames ≤ durationFrames ≤ maxFrames (inclusive);
otherwise nothing is emitted; in both cases the counter resets to 0 and the
detector returns to OPEN. With the defaults (0.21, 2, 12), the sequence
[0.30]*5 ++ [0.10]*4 ++ [0.30]*5 yields exactly one event with
durationFrames = 4, and a 15-frame below-threshold excursion yields none. -/
theorem claim_C1 :
    (∀ (t s0 : ℝ) (m M : ℕ) (e0 ts0 eEnd tsEnd : ℝ) (rest : List (ℝ × ℝ)),
      e0 < t → (∀ p ∈ rest, p.1 < t) → t ≤ eEnd →
      runDetector
        { threshold := t, min_frames := m, max_frames := M,
          below_threshold := false, frame_count := 0, blink_start_time := s0 }
        (((e0, ts0) :: rest) ++ [(eEnd, tsEnd)]) =
        ({ threshold := t, min_frames := m, max_frames := M,
           below_threshold := false, frame_count := 0, blink_start_time := ts0 },
         if m ≤ rest.length + 1 ∧ rest.length + 1 ≤ M then
           [{ start_time := ts0, end_time := tsEnd,
              duration_frames := rest.length + 1, is_complete := true }]
         else [])) ∧
    runDetector BlinkDetector.init
      [((0.30:ℝ), (0:ℝ)), (0.30, 1), (0.30, 2), (0.30, 3), (0.30, 4),
       (0.10, 5), (0.10, 6), (0.10, 7), (0.10, 8),
       (0.30, 9), (0.30, 10), (0.30, 11), (0.30, 12), (0.30, 13)] =
      ({ threshold := 0.21, min_frames := 2, max_frames := 12,
         below_threshold := false, frame_count := 0, blink_start_time := 5 },
       [{ start_time := 5, end_time := 9, duration_frames := 4, is_complete := true }]) ∧
    runDetector BlinkDetector.init
      [((0.30:ℝ), (0:ℝ)),
       (0.10, 1), (0.10, 2), (0.10, 3), (0.10, 4), (0.10, 5), (0.10, 6), (0.10, 7),
       (0.10, 8), (0.10, 9), (0.10, 10), (0.10, 11), (0.10, 12), (0.10, 13), (0.10, 14),
       (0.10, 15),
       (0.30, 16)] =
      ({ threshold := 0.21, min_frames := 2, max_frames := 12,
         below_threshold := false, frame_count := 0, blink_start_time := 1 },
       []) := by
  refine ⟨fun t s0 m M e0 ts0 eEnd tsEnd rest h0 hrest hEnd =>
    blink_upward_crossing t s0 m M e0 ts0 eEnd tsEnd rest h0 hrest hEnd, ?_, ?_⟩
  · norm_num [runDetector, BlinkDetector.init, BlinkDetector.update]
  · norm_num [runDetector, BlinkDetector.init, BlinkDetector.update]

/-- Witness for C1: a 2-frame excursion [0.10, 0.10] followed by 0.30 under
the default parameters emits exactly one event of duration 2. -/
theorem claim_C1_witness :
    ((0.1:ℝ) < 0.21 ∧ (∀ p ∈ [((0.1:ℝ), (1:ℝ))], p.1 < 0.21) ∧ (0.21:ℝ) ≤ 0.3) ∧
    runDetector
      { threshold := 0.21, min_frames := 2, max_frames := 12,
        below_threshold := false, frame_count := 0, blink_start_time := 0 }
      [((0.1:ℝ), (0:ℝ)), (0.1, 1), (0.3, 2)] =
      ({ threshold := 0.21, min_frames := 2, max_frames := 12,
         below_threshold := false, frame_count := 0, blink_start_time := 0 },
       [{ start_time := 0, end_time := 2, duration_frames := 2, is_complete := true }]) := by
  have h1 : (0.1:ℝ) < 0.21 := by norm_num
  have h2 : ∀ p ∈ [((0.1:ℝ), (1:ℝ))], p.1 < 0.21 := by norm_num
  have h3 : (0.21:ℝ) ≤ 0.3 := by norm_num
  have h := claim_C1.1 0.21 0 2 12 0.1 0 0.3 2 [((0.1:ℝ), (1:ℝ))] h1 h2 h3
  refine ⟨⟨h1, h2, h3⟩, ?_⟩
  rw [show ([((0.1:ℝ), (0:ℝ)), (0.1, 1), (0.3, 2)] : List (ℝ × ℝ)) =
    ((0.1, 0) :: [((0.1:ℝ), (1:ℝ))]) ++ [(0.3, 2)] by rfl, h]
  norm_num

/-- C2 (as amended): on a frame with no detected face, `extract` returns a
FacialFeatures record with face_detected = false and all geometric fields
zero, and returns early without calling `TemporalFeatureExtractor.update`:
the whole extractor state, the EAR window included, is unchanged. -/
theorem claim_C2 (pose : List (ℝ × ℝ × ℝ) → ℝ × ℝ × ℝ) (st : FeatureExtractorState)
    (ts : ℝ) :
    FeatureExtractor.extract pose st none ts =
      ({ left_ear := 0.0, right_ear := 0.0, average_ear := 0.0,
         yaw := 0.0, pitch := 0.0, roll := 0.0,
         face_detected := false, confidence := 0.0, timestamp := ts }, st) := rfl

/-- Counterexample to C2 as stated: on a no-face frame the extractor state is
returned untouched, so the EAR window does not receive a 0.0 sample — it
stays empty instead of becoming [0]. -/
theorem claim_C2_counterexample :
    (FeatureExtractor.extract (fun _ => (0, 0, 0)) FeatureExtractorState.init none 0).2 =
      FeatureExtractorState.init ∧
    (FeatureExtractor.extract (fun _ => (0, 0, 0)) FeatureExtractorState.init
        none 0).2.temporal_extractor.ear_history ≠
      dequePush 30 FeatureExtractorState.init.temporal_extractor.ear_history 0 := by
  refine ⟨rfl, ?_⟩
  norm_num [FeatureExtractor.extract, FeatureExtractorState.init,
    TemporalFeatureExtractor.init, dequePush]

/-- C3 (as amended): `TemporalFeatureExtractor.update` appends the frame's
average EAR to the window verbatim — no clamping and no rejection — and
leaves the blink-time window unchanged. -/
theorem claim_C3 (st : TemporalFeatureExtractor) (f : FacialFeatures) :
    (st.update f).2.ear_history =
      dequePush st.window_size st.ear_history f.average_ear ∧
    (st.update f).2.blink_times = st.blink_times := ⟨rfl, rfl⟩

/-- Counterexample to C3 as stated: the out-of-range EAR sample -5 enters the
window unmodified, and after three such frames the computed statistics are
built from it: the returned mean is -5 and PERCLOS is 1. -/
theorem claim_C3_counterexample :
    corruptOnce.2.ear_history = [-5] ∧ ¬ ((0:ℝ) ≤ -5) ∧
    corruptThrice.1.ear_mean = -5 ∧ corruptThrice.1.perclos = 1 := by
  refine ⟨?_, by norm_num, ?_, ?_⟩
  · norm_num [corruptOnce, corruptFrame, TemporalFeatureExtractor.update,
      TemporalFeatureExtractor.init, dequePush]
  · norm_num [corruptThrice, corruptOnce, corruptFrame, TemporalFeatureExtractor.update,
      TemporalFeatureExtractor.init, computeSummary, dequePush, listMean]
  · norm_num [corruptThrice, corruptOnce, corruptFrame, TemporalFeatureExtractor.update,
      TemporalFeatureExtractor.init, computeSummary, dequePush, listPerclos,
      List.countP_cons, List.countP_nil]

/-- C4: for 6 ordered points whose horizontal distance is at least 1e-6,
`calculate_ear` returns exactly (d(p2,p6) + d(p3,p5)) / (2 * d(p1,p4)); being
a Lean function of its input, it is pure with no side effects. -/
theorem claim_C4 (p1 p2 p3 p4 p5 p6 : ℝ × ℝ)
    (h : (1e-6 : ℝ) ≤ euclidean_distance p1 p4) :
    calculate_ear [p1, p2, p3, p4, p5, p6] =
      Except.ok ((euclidean_distance p2 p6 + euclidean_distance p3 p5) /
        (2 * euclidean_distance p1 p4)) := by
  norm_num [calculate_ear]
  intro hlt
  norm_num at h
  exact absurd hlt (not_lt.mpr h)

/-- The horizontal distance from (0,0) to (2,0) equals 2. -/
theorem eucl_zero_two : euclidean_distance ((0:ℝ), (0:ℝ)) (2, 0) = 2 := by
  simp only [euclidean_distance]
  rw [show ((2:ℝ) - 0) ^ 2 + ((0:ℝ) - 0) ^ 2 = 2 ^ 2 by norm_num]
  exact Real.sqrt_sq (by norm_num)

/-- The distance of a point to itself is 0. -/
theorem eucl_self (p : ℝ × ℝ) : euclidean_distance p p = 0 := by
  simp [euclidean_distance]

/-- Witness for C4: a concrete eye with horizontal distance 2 ≥ 1e-6. -/
theorem claim_C4_witness :
    (1e-6 : ℝ) ≤ euclidean_distance ((0:ℝ), (0:ℝ)) (2, 0) ∧
    calculate_ear [((0:ℝ), (0:ℝ)), (0, 1), (0, 1), (2, 0), (0, 0), (0, 0)] =
      Except.ok ((euclidean_distance ((0:ℝ), (1:ℝ)) (0, 0) +
                  euclidean_distance ((0:ℝ), (1:ℝ)) (0, 0)) /
        (2 * euclidean_distance ((0:ℝ), (0:ℝ)) (2, 0))) := by
  have h : (1e-6 : ℝ) ≤ euclidean_distance ((0:ℝ), (0:ℝ)) (2, 0) := by
    rw [eucl_zero_two]; norm_num
  exact ⟨h, claim_C4 _ _ _ _ _ _ h⟩

/-- C5: for 6 points whose horizontal distance is below 1e-6, `calculate_ear`
returns exactly 0.0 without performing the division. -/
theorem claim_C5 (p1 p2 p3 p4 p5 p6 : ℝ × ℝ)
    (h : euclidean_distance p1 p4 < 1e-6) :
    calculate_ear [p1, p2, p3, p4, p5, p6] = Except.ok 0 := by
  norm_num [calculate_ear]
  intro hge
  norm_num at h
  exact absurd h (not_lt.mpr hge)

/-- Witness for C5: six coincident (hence colinear, zero-spread) points. -/
theorem claim_C5_witness :
    euclidean_distance ((0:ℝ), (0:ℝ)) (0, 0) < 1e-6 ∧
    calculate_ear [((0:ℝ), (0:ℝ)), (0, 0), (0, 0), (0, 0), (0, 0), (0, 0)] =
      Except.ok 0 := by
  have h : euclidean_distance ((0:ℝ), (0:ℝ)) (0, 0) < 1e-6 := by
    rw [eucl_self]; norm_num
  exact ⟨h, claim_C5 _ _ _ _ _ _ h⟩

/-- C6: a fresh default extractor returns the fixed default summary on the
first two updates (fewer than 3 samples after the append, in general), and
from the third sample onward returns the statistics computed over the
window. -/
theorem claim_C6 (f1 f2 f3 : FacialFeatures) :
    (∀ (st : TemporalFeatureExtractor) (f : FacialFeatures),
       (dequePush st.window_size st.ear_history f.average_ear).length < 3 →
       (st.update f).1 = default_features) ∧
    ((TemporalFeatureExtractor.init 30 30).update f1).1 = default_features ∧
    (((TemporalFeatureExtractor.init 30 30).update f1).2.update f2).1 = default_features ∧
    ((((TemporalFeatureExtractor.init 30 30).update f1).2.update f2).2.update f3).1 =
      { ear_mean := listMean [f1.average_ear, f2.average_ear, f3.average_ear],
        ear_std := listStd [f1.average_ear, f2.average_ear, f3.average_ear],
        ear_derivative := listDeriv [f1.average_ear, f2.average_ear, f3.average_ear],
        perclos := listPerclos [f1.average_ear, f2.average_ear, f3.average_ear] 0.21,
        blink_rate := computeBlinkRate [] } := by
  refine ⟨fun st f hlen => ?_, ?_, ?_, ?_⟩
  · simp only [TemporalFeatureExtractor.update, computeSummary]
    rw [if_pos hlen]
  · norm_num [TemporalFeatureExtractor.update, TemporalFeatureExtractor.init,
      computeSummary, dequePush]
  · norm_num [TemporalFeatureExtractor.update, TemporalFeatureExtractor.init,
      computeSummary, dequePush]
  · norm_num [TemporalFeatureExtractor.update, TemporalFeatureExtractor.init,
      computeSummary, dequePush]

/-- Witness for C6: the first update of a fresh extractor (window length 1
after the append) returns the default summary. -/
theorem claim_C6_witness :
    (dequePush (TemporalFeatureExtractor.init 30 30).window_size
       (TemporalFeatureExtractor.init 30 30).ear_history
       (FacialFeatures.mk 0.3 0.3 0.3 0 0 0 true 0.9 0).average_ear).length < 3 ∧
    ((TemporalFeatureExtractor.init 30 30).update
       (FacialFeatures.mk 0.3 0.3 0.3 0 0 0 true 0.9 0)).1 = default_features := by
  have hlen : (dequePush (TemporalFeatureExtractor.init 30 30).window_size
      (TemporalFeatureExtractor.init 30 30).ear_history
      (FacialFeatures.mk 0.3 0.3 0.3 0 0 0 true 0.9 0).average_ear).length < 3 := by
    norm_num [dequePush, TemporalFeatureExtractor.init]
  exact ⟨hlen, (claim_C6 (FacialFeatures.mk 0.3 0.3 0.3 0 0 0 true 0.9 0)
    (FacialFeatures.mk 0.3 0.3 0.3 0 0 0 true 0.9 0)
    (FacialFeatures.mk 0.3 0.3 0.3 0 0 0 true 0.9 0)).1 _ _ hlen⟩

/-- C7: with no blink ever recorded, the blink rate is exactly 17.0;
otherwise it counts the stored blink timestamps lying within the last 60
seconds of the most recent recorded blink (not of the current time): 5 blinks
all within 60s of the latest give 5.0, and blinks older than 60s before the
latest are excluded. -/
theorem claim_C7 :
    computeBlinkRate [] = 17 ∧
    (∀ (l : List ℝ) (c : ℝ), l.getLast? = some c →
      computeBlinkRate l = ((l.countP fun t => decide (c - 60.0 < t) : ℕ) : ℝ)) ∧
    computeBlinkRate [10, 20, 30, 40, 59] = 5 ∧
    computeBlinkRate [0, 100, 110, 120, 130] = 4 := by
  refine ⟨by norm_num [computeBlinkRate], fun l c hc => ?_, ?_, ?_⟩
  · simp [computeBlinkRate, hc]
  · norm_num [computeBlinkRate, List.getLast?, List.countP_cons, List.countP_nil]
  · norm_num [computeBlinkRate, List.getLast?, List.countP_cons, List.countP_nil]

/-- Witness for C7: a single blink at time 5 counts itself, giving rate 1. -/
theorem claim_C7_witness : computeBlinkRate [(5:ℝ)] = 1 := by
  have h := claim_C7.2.1 [(5:ℝ)] 5 rfl
  rw [h]
  norm_num [List.countP_cons, List.countP_nil]

/-- C8: the perclos returned over a (≥ 3 sample) window equals the number of
samples strictly below 0.21 divided by the window length; 10 samples of which
3 are below the threshold give exactly 0.3. -/
theorem claim_C8 :
    (∀ (st : TemporalFeatureExtractor) (f : FacialFeatures),
       3 ≤ (dequePush st.window_size st.ear_history f.average_ear).length →
       (st.update f).1.perclos =
         (((dequePush st.window_size st.ear_history f.average_ear).countP
             fun x => decide (x < 0.21) : ℕ) : ℝ) /
           (((dequePush st.window_size st.ear_history f.average_ear).length : ℕ) : ℝ)) ∧
    listPerclos [0.3, 0.3, 0.3, 0.3, 0.3, 0.3, 0.3, 0.1, 0.1, 0.1] 0.21 = 0.3 := by
  constructor
  · intro st f h3
    simp only [TemporalFeatureExtractor.update, computeSummary]
    rw [if_neg (Nat.not_lt.mpr h3)]
    rfl
  · norm_num [listPerclos, List.countP_cons, List.countP_nil]

/-- Witness for C8: a 3-sample window [0.3, 0.1, 0.1] has perclos 2/3. -/
theorem claim_C8_witness :
    3 ≤ (dequePush (30:ℕ) [(0.3:ℝ), 0.1] (0.1:ℝ)).length ∧
    ((TemporalFeatureExtractor.mk 30 30 [(0.3:ℝ), 0.1] []).update
       (FacialFeatures.mk 0.1 0.1 0.1 0 0 0 true 0.9 0)).1.perclos = 2 / 3 := by
  have h3 : 3 ≤ (dequePush (TemporalFeatureExtractor.mk 30 30 [(0.3:ℝ), 0.1] []).window_size
      (TemporalFeatureExtractor.mk 30 30 [(0.3:ℝ), 0.1] []).ear_history
      (FacialFeatures.mk 0.1 0.1 0.1 0 0 0 true 0.9 0).average_ear).length := by
    norm_num [dequePush]
  refine ⟨by norm_num [dequePush], ?_⟩
  rw [claim_C8.1 _ _ h3]
  norm_num [dequePush, List.countP_cons, List.countP_nil]

/-- C9: `calculate_ear` fails with the invalid-input error whenever the input
length differs from 6, and never errors on inputs of length exactly 6. -/
theorem claim_C9 (l : List (ℝ × ℝ)) :
    (l.length ≠ 6 → calculate_ear l = Except.error (.invalidInput l.length)) ∧
    (l.length = 6 → ∃ v, calculate_ear l = Except.ok v) := by
  constructor
  · intro h; simp [calculate_ear, h]
  · intro h
    simp only [calculate_ear]
    rw [if_neg (show ¬ (l.length ≠ 6) by simp [h])]
    rcases lt_or_ge (euclidean_distance (l.getD 0 (0, 0)) (l.getD 3 (0, 0))) 1e-6 with hd | hd
    · exact ⟨0, by rw [if_pos hd]; norm_num⟩
    · exact ⟨_, by rw [if_neg (not_lt.mpr hd)]⟩

/-- Witness for C9: the empty input errors with its length 0; a length-6
input returns a value. -/
theorem claim_C9_witness :
    calculate_ear [] = Except.error (.invalidInput 0) ∧
    ∃ v, calculate_ear [((0:ℝ), (0:ℝ)), (0, 0), (0, 0), (0, 0), (0, 0), (0, 0)] =
      Except.ok v := by
  exact ⟨by simpa using (claim_C9 []).1 (by simp), (claim_C9 _).2 (by simp)⟩

/-- C10: `get_model_input` is not a pure read — it runs the temporal update
again, appending the frame's average EAR to the window once more, so after
`extract` on a detected frame the window holds that EAR twice, and the 5
temporal entries of the returned 10-element vector are the summary of the
double-appended window. -/
theorem claim_C10 (pose : List (ℝ × ℝ × ℝ) → ℝ × ℝ × ℝ) (st : FeatureExtractorState)
    (f : FacialFeatures) (lms : List (ℝ × ℝ × ℝ)) (ts : ℝ) :
    (FeatureExtractor.get_model_input st f).2.temporal_extractor.ear_history =
      dequePush st.temporal_extractor.window_size st.temporal_extractor.ear_history
        f.average_ear ∧
    (FeatureExtractor.get_model_input st f).1 =
      f.to_array ++
        [(computeSummary (dequePush st.temporal_extractor.window_size
            st.temporal_extractor.ear_history f.average_ear)
            st.temporal_extractor.blink_times).ear_mean,
         (computeSummary (dequePush st.temporal_extractor.window_size
            st.temporal_extractor.ear_history f.average_ear)
            st.temporal_extractor.blink_times).ear_std,
         (computeSummary (dequePush st.temporal_extractor.window_size
            st.temporal_extractor.ear_history f.average_ear)
            st.temporal_extractor.blink_times).ear_derivative,
         (computeSummary (dequePush st.temporal_extractor.window_size
            st.temporal_extractor.ear_history f.average_ear)
            st.temporal_extractor.blink_times).perclos,
         (computeSummary (dequePush st.temporal_extractor.window_size
            st.temporal_extractor.ear_history f.average_ear)
            st.temporal_extractor.blink_times).blink_rate / 30.0] ∧
    (FeatureExtractor.get_model_input (FeatureExtractor.extract pose st (some lms) ts).2
        (FeatureExtractor.extract pose st (some lms) ts).1).2.temporal_extractor.ear_history =
      dequePush st.temporal_extractor.window_size
        (dequePush st.temporal_extractor.window_size st.temporal_extractor.ear_history
          (FeatureExtractor.extract pose st (some lms) ts).1.average_ear)
        (FeatureExtractor.extract pose st (some lms) ts).1.average_ear := by
  refine ⟨rfl, rfl, ?_⟩
  simp only [FeatureExtractor.extract, FeatureExtractor.get_model_input,
    TemporalFeatureExtractor.update, TemporalFeatureExtractor.add_blink]
  split <;> rfl
